import Mathlib

/-!
Verification of the SimuForge TypeScript front end (renderer, web app and
WASM loader) against its natural-language specification.  The definitions
below are shallow embeddings of the TypeScript source: JavaScript numbers
are modelled as rationals, JSON documents as an inductive `Json` value,
and the mutable classes as explicit state-passing functions.
-/

namespace SimuForge

/-! ## JSON documents (the values built by `generateSpec` in main.ts) -/

/-- A JSON value: strings, numbers (modelled as rationals), booleans,
arrays and objects with ordered fields. -/
inductive Json where
  | str : String → Json
  | num : ℚ → Json
  | bool : Bool → Json
  | arr : List Json → Json
  | obj : List (String × Json) → Json

/-- Field lookup in a JSON object (first match), `none` on anything else. -/
def Json.lookupField : Json → String → Option Json
  | Json.obj l, k => List.lookup k l
  | _, _ => none

/-- Field lookup defaulting to the empty object. -/
def Json.getField (j : Json) (k : String) : Json :=
  (j.lookupField k).getD (Json.obj [])

/-! ## getScenarioParams (main.ts lines 79-92)

The TypeScript `switch` over the scenario name, returning the default
parameter bag for each builtin scenario and `{}` otherwise. -/

def getScenarioParams (scenario : String) : Json :=
  if scenario = "box_stack" then
    Json.obj [("count", Json.num 10),
              ("box_size", Json.arr [Json.num 1, Json.num 1, Json.num 1]),
              ("friction", Json.num (1/2))]
  else if scenario = "rolling_sphere" then
    Json.obj [("radius", Json.num (1/2)),
              ("initial_velocity", Json.arr [Json.num 5, Json.num 0, Json.num 0]),
              ("friction", Json.num (1/2))]
  else if scenario = "bouncing_ball" then
    Json.obj [("radius", Json.num (1/2)),
              ("drop_height", Json.num 10),
              ("restitution", Json.num (4/5))]
  else if scenario = "friction_ramp" then
    Json.obj [("ramp_angle", Json.num (1/2)),
              ("ramp_length", Json.num 10),
              ("friction", Json.num (3/10))]
  else
    Json.obj []

/-! ## generateSpec (main.ts lines 38-74)

The experiment document built from the form inputs.  `scenario` is the
selected scenario name, `steps` the parsed integer steps value,
`timestep` the parsed timestep, and `now` the value of `Date.now()`
(an external clock reading used only in `metadata.name`). -/

def generateSpec (scenario : String) (steps : ℤ) (timestep : ℚ) (now : ℕ) : Json :=
  Json.obj [
    ("apiVersion", Json.str "simuforge/v1"),
    ("kind", Json.str "Experiment"),
    ("metadata", Json.obj [
      ("name", Json.str (scenario ++ "-" ++ toString now))]),
    ("spec", Json.obj [
      ("physics", Json.obj [
        ("timestep", Json.num timestep),
        ("gravity", Json.arr [Json.num 0, Json.num (-981/100), Json.num 0]),
        ("solver_iterations", Json.num 8),
        ("enhanced_determinism", Json.bool true)]),
      ("duration", Json.obj [
        ("type", Json.str "fixed"),
        ("steps", Json.num (steps : ℚ))]),
      ("scenario", Json.obj [
        ("type", Json.str "builtin"),
        ("name", Json.str scenario),
        ("params", getScenarioParams scenario)]),
      ("metrics", Json.obj [
        ("per_frame", Json.arr [Json.str "total_energy", Json.str "momentum",
                                Json.str "penetration", Json.str "contacts"]),
        ("aggregate", Json.arr [Json.str "energy_drift_percent",
                                Json.str "max_penetration", Json.str "stability_time"])]),
      ("criteria", Json.obj [])])]

/-- The duration object of a generated experiment document. -/
def durationOf (doc : Json) : Json := (doc.getField "spec").getField "duration"

/-- The scenario object of a generated experiment document. -/
def scenarioOf (doc : Json) : Json := (doc.getField "spec").getField "scenario"

/-! ## SimulationReport status (wasm-loader.ts lines 285-314)

The status component of the `SimulationReport` interface: the TypeScript
union type `'pending' | 'passed' | 'failed' | 'error'`. -/

inductive ReportStatus where
  | pending
  | passed
  | failed
  | error
deriving DecidableEq

/-- The string carried by each member of the status union type. -/
def statusString : ReportStatus → String
  | ReportStatus.pending => "pending"
  | ReportStatus.passed => "passed"
  | ReportStatus.failed => "failed"
  | ReportStatus.error => "error"

/-- ASCII lowercasing, the fragment of JavaScript `toLowerCase` the
source relies on (all compared names are ASCII). -/
def lowerStr (s : String) : String := String.mk (s.data.map Char.toLower)

/-! ## JavaScript string searching

`jsIncludes s sub` models `s.includes(sub)`: a linear scan testing at
each suffix whether `sub` is a leading segment. -/

/-- `leadsWith p s` is true iff `p` is a leading segment of `s`. -/
def leadsWith : List Char → List Char → Bool
  | [], _ => true
  | _ :: _, [] => false
  | c :: p, d :: s => c == d && leadsWith p s

/-- `hasSub s p` is true iff `p` occurs contiguously inside `s`. -/
def hasSub : List Char → List Char → Bool
  | [], p => p.isEmpty
  | c :: t, p => leadsWith p (c :: t) || hasSub t p

/-- JavaScript `s.includes(sub)`. -/
def jsIncludes (s sub : String) : Bool := hasSub s.data sub.data

/-- The specification-level statement that `sub` occurs contiguously in
`s`: some left and right context lists surround it. -/
def ContainsStr (s sub : String) : Prop := ∃ a b, s.data = a ++ sub.data ++ b

/-! ## Body transforms and renderer shape setup
(wasm-loader.ts lines 245-250, renderer.ts lines 137-165) -/

/-- The `BodyTransform` interface of wasm-loader.ts. -/
structure BodyTransform where
  id : ℕ
  name : String
  position : ℚ × ℚ × ℚ
  rotation : ℚ × ℚ × ℚ × ℚ
deriving DecidableEq

/-- The `BodyShape` variants of body-visualizer.ts. -/
inductive ShapeT where
  | box (halfExtents : ℚ × ℚ × ℚ)
  | sphere (radius : ℚ)
  | capsule (radius halfHeight : ℚ)
  | cylinder (radius halfHeight : ℚ)
deriving DecidableEq

/-- One entry of the `shapes` array `initializeFromSimulation` passes to
the body visualizer. -/
structure ShapeInfo where
  id : ℕ
  name : String
  shape : ShapeT
  isStatic : Bool
deriving DecidableEq

/-- The `shapes` array built by `initializeFromSimulation`
(renderer.ts lines 144-154): every body is visualised as a unit box, and
is classified static when its lowercased name contains "ground",
"floor" or "ramp". -/
def mkShapes (transforms : List BodyTransform) : List ShapeInfo :=
  transforms.map fun t =>
    { id := t.id
      name := t.name
      shape := ShapeT.box (1/2, 1/2, 1/2)
      isStatic := jsIncludes (lowerStr t.name) "ground" ||
                  jsIncludes (lowerStr t.name) "floor" ||
                  jsIncludes (lowerStr t.name) "ramp" }

/-! ## The remaining report fields (wasm-loader.ts lines 285-314) -/

structure ReportMetrics where
  energyDriftPercent : ℚ
  initialEnergy : ℚ
  finalEnergy : ℚ
  maxPenetrationEver : ℚ
  totalConstraintViolations : ℕ
  stabilizationStep : Option ℕ
  stabilityTime : Option ℚ
  averageContactCount : ℚ
  frameCount : ℕ
deriving DecidableEq

structure CriterionResult where
  value : ℚ
  min : Option ℚ
  max : Option ℚ
  passed : Bool
deriving DecidableEq

inductive Recommendation where
  | accept
  | reject
  | review
deriving DecidableEq

structure BaselineComparison where
  baselineName : String
  metricsImproved : List String
  metricsRegressed : List String
  recommendation : Recommendation
deriving DecidableEq

/-- The `SimulationReport` interface of wasm-loader.ts. -/
structure SimulationReport where
  status : ReportStatus
  experimentName : String
  totalSteps : ℕ
  totalTime : ℚ
  metrics : ReportMetrics
  criteriaResults : List (String × CriterionResult)
  baselineComparison : Option BaselineComparison
  error : Option String

/-! ## WasmLoader.validateSpec (wasm-loader.ts lines 410-418)

The loader's spec validation calls the WASM module's `validate_spec`
and never constructs a `Simulation`.  The opaque WASM function is a
parameter; the calls made to the module are returned as a trace. -/

/-- A call made to the WASM module. -/
inductive WasmCall where
  | validateCall (spec : String)
  | constructSim (spec : String)
deriving DecidableEq

/-- The `{ valid, error? }` result object of `validateSpec`. -/
structure ValidationResult where
  valid : Bool
  error : Option String
deriving DecidableEq

/-- `WasmLoader.validateSpec`: result object plus the trace of WASM
calls the body performs. -/
def validateSpec (validate : String → String) (s : String) :
    ValidationResult × List WasmCall :=
  let result := validate s
  (if result = "valid" then { valid := true, error := none }
   else { valid := false, error := some result },
   [WasmCall.validateCall s])

/-! ## Renderer playback state (renderer.ts lines 44-50, 203-272)

The playback-related fields of `SimuForgeRenderer` and the public
operations that touch them, as explicit state passing. -/

structure PlaybackState where
  isPlaying : Bool
  playbackSpeed : ℚ
  accumulatedTime : ℚ
  hasSim : Bool
deriving DecidableEq

/-- The renderer's initial playback field values (lines 45-48). -/
def initPlayback : PlaybackState :=
  { isPlaying := false, playbackSpeed := 1, accumulatedTime := 0, hasSim := false }

/-- The renderer operations that can touch playback state. -/
inductive ROp where
  | playOp
  | pauseOp
  | stepOnce
  | resetOp
  | loadSim
  | setSpeed (v : ℚ)
deriving DecidableEq

/-- Effect of each renderer operation on the playback fields:
`play` (206-210), `pause` (215-217), `step` (222-234, which leaves all
playback fields alone), `reset` (239-248), simulation loading via
`initializeFromSimulation` (163-164), and `setPlaybackSpeed` (263-265),
which clamps with `Math.max(0.1, Math.min(10, speed))`. -/
def applyOp : ROp → PlaybackState → PlaybackState
  | ROp.playOp, st => if st.hasSim then { st with isPlaying := true } else st
  | ROp.pauseOp, st => { st with isPlaying := false }
  | ROp.stepOnce, st => st
  | ROp.resetOp, st =>
      if st.hasSim then { st with isPlaying := false, accumulatedTime := 0 } else st
  | ROp.loadSim, st =>
      { st with isPlaying := false, accumulatedTime := 0, hasSim := true }
  | ROp.setSpeed v, st => { st with playbackSpeed := max (1/10) (min 10 v) }

/-- `getPlaybackSpeed` (renderer.ts lines 270-272). -/
def getPlaybackSpeed (st : PlaybackState) : ℚ := st.playbackSpeed

/-! ## WasmLoader.load (wasm-loader.ts lines 341-389)

The module-level cache `wasmModule` and in-flight promise `initPromise`,
observed at call boundaries: `initPromiseVal` holds the value a resolved
in-flight promise carries.  One sequential `load()` call is
`loadOnce st attempt` where `attempt` is the outcome the dynamic import
would have on this call; it returns the call's result, the new cache
state, and whether a dynamic import was performed. -/

structure LoaderState (M : Type) where
  wasmModule : Option M
  initPromiseVal : Option M

/-- The initial module-level state (lines 341-342). -/
def loaderInit (M : Type) : LoaderState M := ⟨none, none⟩

/-- One sequential call to `WasmLoader.load()`. -/
def loadOnce {M : Type} (st : LoaderState M) (attempt : Except String M) :
    Except String M × LoaderState M × Bool :=
  match st.wasmModule with
  | some m => (Except.ok m, st, false)
  | none =>
    match st.initPromiseVal with
    | some m => (Except.ok m, st, false)
    | none =>
      match attempt with
      | Except.ok m => (Except.ok m, ⟨some m, some m⟩, true)
      | Except.error e => (Except.error e, ⟨none, none⟩, true)

/-- `WasmLoader.isLoaded` (lines 387-389). -/
def isLoaded {M : Type} (st : LoaderState M) : Bool := st.wasmModule.isSome

/-! ## MetricFrame (wasm-loader.ts lines 252-283) -/

structure Vec3 where
  x : ℚ
  y : ℚ
  z : ℚ
deriving DecidableEq

structure Quat where
  x : ℚ
  y : ℚ
  z : ℚ
  w : ℚ
deriving DecidableEq

/-- One element of `MetricFrame.bodies`. -/
structure BodyFrameState where
  id : ℕ
  name : String
  position : Vec3
  rotation : Quat
  velocity : Vec3
  angularVelocity : Vec3
  sleeping : Bool
deriving DecidableEq

structure EnergyMetrics where
  kinetic : ℚ
  potential : ℚ
  total : ℚ
deriving DecidableEq

structure MomentumMetrics where
  linear : Vec3
  angular : Vec3
  linearMagnitude : ℚ
  angularMagnitude : ℚ
deriving DecidableEq

structure ContactMetrics where
  contactCount : ℕ
  maxPenetration : ℚ
  totalPenetration : ℚ
  constraintViolations : ℕ
deriving DecidableEq

/-- The `MetricFrame` interface of wasm-loader.ts. -/
structure MetricFrame where
  step : ℕ
  time : ℚ
  energy : EnergyMetrics
  momentum : MomentumMetrics
  contacts : ContactMetrics
  bodies : List BodyFrameState
deriving DecidableEq

/-! ## SimuForgeRenderer.step (renderer.ts lines 222-234) -/

/-- An implementation of the `Simulation` interface of wasm-loader.ts,
abstract over its internal state: `isComplete` reads completion,
`stepSim` advances by one step and returns the emitted frame. -/
structure SimModel where
  State : Type
  isComplete : State → Bool
  stepSim : State → MetricFrame × State

/-- `SimuForgeRenderer.step` over a loaded simulation `sim` (`none`
when no simulation is loaded): the returned frame (`null` as `none`),
the simulation state afterwards, and how many times the simulation's
own `step()` was invoked. -/
def rendererStep (M : SimModel) (sim : Option M.State) :
    Option MetricFrame × Option M.State × ℕ :=
  match sim with
  | none => (none, none, 0)
  | some s =>
    if M.isComplete s then (none, some s, 0)
    else
      let fs := M.stepSim s
      (some fs.1, some fs.2, 1)

/-- An all-zero frame, used to instantiate abstract simulations. -/
def sampleFrame : MetricFrame :=
  { step := 0
    time := 0
    energy := { kinetic := 0, potential := 0, total := 0 }
    momentum := { linear := ⟨0, 0, 0⟩, angular := ⟨0, 0, 0⟩,
                  linearMagnitude := 0, angularMagnitude := 0 }
    contacts := { contactCount := 0, maxPenetration := 0,
                  totalPenetration := 0, constraintViolations := 0 }
    bodies := [] }

/-- A concrete three-step simulation over natural-number states. -/
def toySim : SimModel :=
  { State := ℕ
    isComplete := fun n => decide (3 ≤ n)
    stepSim := fun n => ({ sampleFrame with step := n }, n + 1) }

/-! ## BodyVisualizer.updateTransforms
(body-visualizer.ts lines 406-439, shown in main.ts) -/

/-- The named materials of the visualizer. -/
inductive MaterialTag where
  | dynamicMat
  | staticMat
  | sleepingMat
  | selectedMat
  | groundMat
deriving DecidableEq

/-- The visual state of one tracked body mesh. -/
structure BodyMesh where
  position : ℚ × ℚ × ℚ
  rotation : ℚ × ℚ × ℚ × ℚ
  material : MaterialTag
  isStatic : Bool
deriving DecidableEq

/-- The update `updateTransforms` applies to a tracked body whose id
matches the transform: position, rotation quaternion and the material
chosen from selection, sleeping, and the static/ground heuristic
(lines 411-437). -/
def applyBodyUpdate (selected : Option ℕ) (sleeping : Option (List ℕ))
    (t : BodyTransform) (b : BodyMesh) : BodyMesh :=
  { b with
    position := t.position
    rotation := t.rotation
    material :=
      if some t.id = selected then MaterialTag.selectedMat
      else if (sleeping.getD []).contains t.id then MaterialTag.sleepingMat
      else if b.isStatic then
        (if jsIncludes (lowerStr t.name) "ground" || jsIncludes (lowerStr t.name) "floor"
         then MaterialTag.groundMat else MaterialTag.staticMat)
      else MaterialTag.dynamicMat }

/-- Processing of one transform against the tracked-bodies map: the
tracked body with a matching id is updated, every other entry is left
as it is, and a transform matching no tracked id changes nothing. -/
def updateOne (selected : Option ℕ) (sleeping : Option (List ℕ))
    (bodies : List (ℕ × BodyMesh)) (t : BodyTransform) : List (ℕ × BodyMesh) :=
  bodies.map fun p =>
    if p.1 = t.id then (p.1, applyBodyUpdate selected sleeping t p.2) else p

/-- `BodyVisualizer.updateTransforms`: the transforms are processed in
order against the tracked-bodies map. -/
def updateTransforms (selected : Option ℕ) (sleeping : Option (List ℕ))
    (bodies : List (ℕ × BodyMesh)) (ts : List BodyTransform) : List (ℕ × BodyMesh) :=
  ts.foldl (updateOne selected sleeping) bodies

/-- A dynamic sample mesh. -/
def meshA : BodyMesh :=
  { position := (0, 0, 0), rotation := (0, 0, 0, 1),
    material := MaterialTag.dynamicMat, isStatic := false }

/-- A static sample mesh. -/
def meshB : BodyMesh :=
  { position := (1, 0, 0), rotation := (0, 0, 0, 1),
    material := MaterialTag.staticMat, isStatic := true }

/-- A transform for the tracked body 0. -/
def tfA : BodyTransform :=
  { id := 0, name := "box", position := (2, 3, 4), rotation := (0, 0, 0, 1) }

/-- A transform whose id 5 is not tracked. -/
def tfX : BodyTransform :=
  { id := 5, name := "ghost", position := (9, 9, 9), rotation := (0, 0, 0, 1) }

/-! ## The experiment execution pipeline (spec-modelled)

The metric-collecting execution pipeline — MetricWorld, Aggregator,
Criteria Evaluator and Runner of spec §4 — is implemented in the
repository's Rust crates, which are not among the files here; only its
TypeScript-facing interface declarations appear (wasm-loader.ts).  The
definitions in this section are modelled from the spec. -/

/-- Modelled from the spec: the typed `ExperimentSpec` of §3 (the Rust
spec model is not among the files here). -/
structure ExperimentSpec where
  name : String
  timestep : ℚ
  gravity : Vec3
  solverIterations : ℕ
  enhancedDeterminism : Bool
  seed : ℕ
  steps : ℕ
  scenario : String
  criteria : List (String × Option ℚ × Option ℚ)
deriving DecidableEq

/-- Modelled from the spec: the opaque deterministic solver contract of
§6.4 — creation from a spec, a single step(dt, gravity) transition, and
pure readout of a metric frame from the post-step state. -/
structure SolverModel where
  State : Type
  init : ExperimentSpec → State
  advance : State → ℚ → Vec3 → State
  extract : State → MetricFrame

/-- Modelled from the spec: the MetricWorld step loop of §4.2 — from
solver state `st`, run `n` more steps, the next emitted frame having
index `k`; each frame is stamped with its step index and the time
k × timestep. -/
def framesFrom (M : SolverModel) (s : ExperimentSpec) :
    M.State → ℕ → ℕ → List MetricFrame
  | _, _, 0 => []
  | st, k, n + 1 =>
    let st' := M.advance st s.timestep s.gravity
    { M.extract st' with step := k, time := (k : ℚ) * s.timestep } ::
      framesFrom M s st' (k + 1) n

/-- Modelled from the spec: a full MetricWorld run, `duration.steps`
frames from the freshly constructed world. -/
def runFrames (M : SolverModel) (s : ExperimentSpec) : List MetricFrame :=
  framesFrom M s (M.init s) 0 s.steps

/-- Stability window length (spec §4.3, STAB_WINDOW). -/
def STAB_WINDOW : ℕ := 30

/-- Kinetic-energy stability threshold in joules (spec §4.3, STAB_KE). -/
def STAB_KE : ℚ := 1/10

/-- Near-zero guard for the drift denominator (spec §4.3, ε). -/
def AGG_EPS : ℚ := 1/1000000000

/-- Modelled from the spec: whether the kinetic energy stays below
STAB_KE on the whole window [k, k + STAB_WINDOW). -/
def stableFrom (frames : List MetricFrame) (k : ℕ) : Bool :=
  ((frames.drop k).take STAB_WINDOW).all fun f => decide (f.energy.kinetic < STAB_KE)

/-- Modelled from the spec: the smallest window start within
[0, frame_count − STAB_WINDOW] that is stable, if any. -/
def stabilizationStep (frames : List MetricFrame) : Option ℕ :=
  (List.range (frames.length + 1 - STAB_WINDOW)).find? (stableFrom frames)

/-- Modelled from the spec: the Aggregator of §4.3, rolling a frame
sequence into the aggregate metrics record. -/
def aggregateFrames (timestep : ℚ) (frames : List MetricFrame) : ReportMetrics :=
  let initial := (frames.head?.map fun f => f.energy.total).getD 0
  let final := (frames.getLast?.map fun f => f.energy.total).getD 0
  { energyDriftPercent := (final - initial) / max |initial| AGG_EPS * 100
    initialEnergy := initial
    finalEnergy := final
    maxPenetrationEver := frames.foldl (fun a f => max a f.contacts.maxPenetration) 0
    totalConstraintViolations :=
      frames.foldl (fun a f => a + f.contacts.constraintViolations) 0
    stabilizationStep := stabilizationStep frames
    stabilityTime := (stabilizationStep frames).map fun k => (k : ℚ) * timestep
    averageContactCount :=
      if frames.length = 0 then 0
      else frames.foldl (fun a f => a + (f.contacts.contactCount : ℚ)) 0 / frames.length
    frameCount := frames.length }

/-- Modelled from the spec: the recognised aggregate tags a criterion
may reference. -/
def lookupAggregate (m : ReportMetrics) : String → Option ℚ
  | "energy_drift_percent" => some m.energyDriftPercent
  | "max_penetration" => some m.maxPenetrationEver
  | "total_constraint_violations" => some (m.totalConstraintViolations : ℚ)
  | "average_contact_count" => some m.averageContactCount
  | "frame_count" => some (m.frameCount : ℚ)
  | _ => none

/-- Modelled from the spec: evaluation of a single min/max criterion
(§4.4); `none` when the tag names no recognised aggregate. -/
def evalCriterion (m : ReportMetrics) (c : String × Option ℚ × Option ℚ) :
    Option CriterionResult :=
  (lookupAggregate m c.1).map fun v =>
    { value := v
      min := c.2.1
      max := c.2.2
      passed := (c.2.1.all fun lo => decide (lo ≤ v)) &&
                (c.2.2.all fun hi => decide (v ≤ hi)) }

/-- Modelled from the spec: overall verdict of §4.4 — unknown tags give
an error, otherwise passed iff every declared criterion passes. -/
def runStatus (s : ExperimentSpec) (m : ReportMetrics) : ReportStatus :=
  if s.criteria.any fun c => (evalCriterion m c).isNone then ReportStatus.error
  else if s.criteria.all fun c => ((evalCriterion m c).map fun r => r.passed).getD false
    then ReportStatus.passed
  else ReportStatus.failed

/-- The report a run produces; `timingMs` is the wall-clock timing, the
one field the determinism contract exempts. -/
structure RunReport where
  status : ReportStatus
  experimentName : String
  totalSteps : ℕ
  totalTime : ℚ
  metrics : ReportMetrics
  criteriaResults : List (String × CriterionResult)
  timingMs : ℕ
deriving DecidableEq

/-- Modelled from the spec: the Runner of §4.6 — step loop, aggregate,
evaluate, assemble report.  `wallMs` is the external wall-clock reading
recorded in the timing field. -/
def runExperiment (M : SolverModel) (s : ExperimentSpec) (wallMs : ℕ) : RunReport :=
  let frames := runFrames M s
  let m := aggregateFrames s.timestep frames
  { status := runStatus s m
    experimentName := s.name
    totalSteps := frames.length
    totalTime := (s.steps : ℚ) * s.timestep
    metrics := m
    criteriaResults :=
      s.criteria.filterMap fun c => (evalCriterion m c).map fun r => (c.1, r)
    timingMs := wallMs }

/-- A report with its timing field cleared: the fields the determinism
contract covers. -/
def stripTiming (r : RunReport) : RunReport := { r with timingMs := 0 }

/-- The solver of a one-body world at rest: a concrete instance of the
solver contract. -/
def trivialSolver : SolverModel :=
  { State := Unit
    init := fun _ => ()
    advance := fun st _ _ => st
    extract := fun _ => sampleFrame }

/-- A small concrete experiment spec. -/
def sampleSpec : ExperimentSpec :=
  { name := "box_stack-demo"
    timestep := 1/60
    gravity := ⟨0, -981/100, 0⟩
    solverIterations := 8
    enhancedDeterminism := true
    seed := 0
    steps := 2
    scenario := "box_stack"
    criteria := [] }

end SimuForge

namespace SimuForge

/-! ## Theorems for the report status and spec generation claims -/

/-- C2 as stated is false: the `SimulationReport` status union type in
wasm-loader.ts admits the value `pending`, which is not in
{passed, failed, error}.  Witnessed by a concrete report whose status is
`pending`. -/
theorem status_admits_pending :
    statusString ReportStatus.pending = "pending" ∧
    statusString ReportStatus.pending ≠ "passed" ∧
    statusString ReportStatus.pending ≠ "failed" ∧
    statusString ReportStatus.pending ≠ "error" := by
  refine ⟨rfl, ?_, ?_, ?_⟩ <;> decide

/-- C2 (amended): every `SimulationReport` status is drawn from the set
{pending, passed, failed, error}, and each of these is a lowercase
string (fixed under ASCII lowercasing). -/
theorem report_status_range (r : SimulationReport) :
    (statusString r.status = "pending" ∨ statusString r.status = "passed" ∨
     statusString r.status = "failed" ∨ statusString r.status = "error") ∧
    lowerStr (statusString r.status) = statusString r.status := by
  cases h : r.status <;> simp [statusString, lowerStr]

/-- Witness for C2 (amended) at a concrete report with status `failed`. -/
theorem report_status_range_witness :
    (statusString ReportStatus.failed = "pending" ∨
     statusString ReportStatus.failed = "passed" ∨
     statusString ReportStatus.failed = "failed" ∨
     statusString ReportStatus.failed = "error") ∧
    lowerStr (statusString ReportStatus.failed) = statusString ReportStatus.failed :=
  report_status_range
    { status := ReportStatus.failed
      experimentName := "box_stack-0"
      totalSteps := 60
      totalTime := 1
      metrics :=
        { energyDriftPercent := 0, initialEnergy := 0, finalEnergy := 0
          maxPenetrationEver := 0, totalConstraintViolations := 0
          stabilizationStep := none, stabilityTime := none
          averageContactCount := 0, frameCount := 60 }
      criteriaResults := []
      baselineComparison := none
      error := none }

/-- C3 as stated is false at a concrete input: the duration object the
web form generator emits carries its discriminator under the field name
`type`, not `kind` (main.ts line 57), and likewise for the scenario
object (line 61). -/
theorem generateSpec_discriminator_is_type :
    (durationOf (generateSpec "box_stack" 100 (1/60) 0)).lookupField "kind" = none ∧
    (durationOf (generateSpec "box_stack" 100 (1/60) 0)).lookupField "type" =
      some (Json.str "fixed") ∧
    (scenarioOf (generateSpec "box_stack" 100 (1/60) 0)).lookupField "kind" = none ∧
    (scenarioOf (generateSpec "box_stack" 100 (1/60) 0)).lookupField "type" =
      some (Json.str "builtin") :=
  ⟨rfl, rfl, rfl, rfl⟩

/-- C3 (amended): for every scenario name, steps and timestep read from
the form (and clock reading), the generated document has top-level
`apiVersion = "simuforge/v1"`, `kind = "Experiment"`, a non-empty
`metadata.name`, and a spec whose duration object carries the
discriminator field `type` with value `"fixed"` and whose scenario
object carries the discriminator field `type` with value `"builtin"`. -/
theorem generateSpec_envelope (scenario : String) (steps : ℤ) (timestep : ℚ) (now : ℕ) :
    (generateSpec scenario steps timestep now).lookupField "apiVersion" =
      some (Json.str "simuforge/v1") ∧
    (generateSpec scenario steps timestep now).lookupField "kind" =
      some (Json.str "Experiment") ∧
    ((generateSpec scenario steps timestep now).getField "metadata").lookupField "name" =
      some (Json.str (scenario ++ "-" ++ toString now)) ∧
    scenario ++ "-" ++ toString now ≠ "" ∧
    (durationOf (generateSpec scenario steps timestep now)).lookupField "type" =
      some (Json.str "fixed") ∧
    (scenarioOf (generateSpec scenario steps timestep now)).lookupField "type" =
      some (Json.str "builtin") := by
  refine ⟨rfl, rfl, rfl, ?_, rfl, rfl⟩
  intro h
  have hlen := congrArg String.length h
  rw [String.length_append, String.length_append] at hlen
  have hone : ("-" : String).length = 1 := rfl
  have hzero : ("" : String).length = 0 := rfl
  rw [hone, hzero] at hlen
  omega

/-- C4: `getScenarioParams` returns exactly the default parameter bag of
each of the four builtin scenarios, and the empty bag for every other
scenario name. -/
theorem getScenarioParams_defaults :
    getScenarioParams "box_stack" =
      Json.obj [("count", Json.num 10),
                ("box_size", Json.arr [Json.num 1, Json.num 1, Json.num 1]),
                ("friction", Json.num (1/2))] ∧
    getScenarioParams "rolling_sphere" =
      Json.obj [("radius", Json.num (1/2)),
                ("initial_velocity", Json.arr [Json.num 5, Json.num 0, Json.num 0]),
                ("friction", Json.num (1/2))] ∧
    getScenarioParams "bouncing_ball" =
      Json.obj [("radius", Json.num (1/2)),
                ("drop_height", Json.num 10),
                ("restitution", Json.num (4/5))] ∧
    getScenarioParams "friction_ramp" =
      Json.obj [("ramp_angle", Json.num (1/2)),
                ("ramp_length", Json.num 10),
                ("friction", Json.num (3/10))] ∧
    ∀ s : String, s ≠ "box_stack" → s ≠ "rolling_sphere" → s ≠ "bouncing_ball" →
      s ≠ "friction_ramp" → getScenarioParams s = Json.obj [] := by
  refine ⟨?_, ?_, ?_, ?_, ?_⟩
  · rw [getScenarioParams, if_pos rfl]
  · rw [getScenarioParams, if_neg (by decide), if_pos rfl]
  · rw [getScenarioParams, if_neg (by decide), if_neg (by decide), if_pos rfl]
  · rw [getScenarioParams, if_neg (by decide), if_neg (by decide), if_neg (by decide),
      if_pos rfl]
  · intro s h1 h2 h3 h4
    rw [getScenarioParams, if_neg h1, if_neg h2, if_neg h3, if_neg h4]

/-- Witness for C4 at the concrete non-builtin scenario name "custom". -/
theorem getScenarioParams_defaults_witness :
    getScenarioParams "custom" = Json.obj [] :=
  getScenarioParams_defaults.2.2.2.2 "custom" (by decide) (by decide) (by decide) (by decide)

/-- The scan `leadsWith` decides the leading-segment relation. -/
theorem leadsWith_iff (p : List Char) :
    ∀ s, leadsWith p s = true ↔ ∃ r, s = p ++ r := by
  induction p with
  | nil => intro s; simp [leadsWith]
  | cons c p ih =>
    intro s
    cases s with
    | nil => simp [leadsWith]
    | cons d t =>
      simp only [leadsWith, Bool.and_eq_true, beq_iff_eq, ih, List.cons_append,
        List.cons.injEq]
      constructor
      · rintro ⟨hcd, r, hr⟩
        exact ⟨r, hcd.symm, hr⟩
      · rintro ⟨r, hdc, hr⟩
        exact ⟨hdc.symm, r, hr⟩

/-- The scan `hasSub` decides contiguous containment. -/
theorem hasSub_iff (s p : List Char) :
    hasSub s p = true ↔ ∃ a b, s = a ++ p ++ b := by
  induction s with
  | nil =>
    simp only [hasSub, List.isEmpty_iff]
    constructor
    · rintro rfl
      exact ⟨[], [], rfl⟩
    · rintro ⟨a, b, h⟩
      have h' : a ++ p ++ b = [] := h.symm
      rcases List.append_eq_nil.mp h' with ⟨h1, _⟩
      exact (List.append_eq_nil.mp h1).2
  | cons c t ih =>
    simp only [hasSub, Bool.or_eq_true, leadsWith_iff, ih]
    constructor
    · rintro (⟨r, hr⟩ | ⟨a, b, hab⟩)
      · exact ⟨[], r, by simpa using hr⟩
      · exact ⟨c :: a, b, by simp [hab]⟩
    · rintro ⟨a, b, hab⟩
      cases a with
      | nil => exact Or.inl ⟨b, by simpa using hab⟩
      | cons x xs =>
        right
        simp only [List.cons_append, List.cons.injEq] at hab
        exact ⟨xs, b, hab.2⟩

/-- C5: in `initializeFromSimulation`, every body transform yields a
shape entry carrying the same id and name, visualised as a unit box,
that is classified static exactly when the lowercased body name
contains one of the substrings "ground", "floor" or "ramp";
the classification is a function of the name alone. -/
theorem initializeFromSimulation_static_heuristic (ts : List BodyTransform)
    (t : BodyTransform) (ht : t ∈ ts) :
    ∃ sh ∈ mkShapes ts, sh.id = t.id ∧ sh.name = t.name ∧
      sh.shape = ShapeT.box (1/2, 1/2, 1/2) ∧
      (sh.isStatic = true ↔
        (ContainsStr (lowerStr t.name) "ground" ∨
         ContainsStr (lowerStr t.name) "floor" ∨
         ContainsStr (lowerStr t.name) "ramp")) := by
  refine ⟨_, List.mem_map_of_mem _ ht, rfl, rfl, rfl, ?_⟩
  simp only [Bool.or_eq_true, jsIncludes, hasSub_iff, ContainsStr, or_assoc]

/-- Witness for C5 at a one-body simulation whose body is named
"Ground": the lowercased name contains "ground". -/
theorem initializeFromSimulation_static_heuristic_witness :
    ∃ sh ∈ mkShapes [{ id := 0, name := "Ground", position := (0, 0, 0),
                       rotation := (0, 0, 0, 1) }],
      sh.id = (0 : ℕ) ∧ sh.name = "Ground" ∧
      sh.shape = ShapeT.box (1/2, 1/2, 1/2) ∧
      (sh.isStatic = true ↔
        (ContainsStr (lowerStr "Ground") "ground" ∨
         ContainsStr (lowerStr "Ground") "floor" ∨
         ContainsStr (lowerStr "Ground") "ramp")) :=
  initializeFromSimulation_static_heuristic _ _ (List.mem_singleton_self _)

/-- C7: `WasmLoader.validateSpec` returns valid = true with no error
exactly when the module's `validate_spec` returned the string "valid";
in every other case it returns valid = false with the returned string as
the error; and the body never constructs a `Simulation`. -/
theorem validateSpec_valid_iff (validate : String → String) (s : String) :
    ((validateSpec validate s).1 = { valid := true, error := none } ↔
      validate s = "valid") ∧
    (validate s ≠ "valid" →
      (validateSpec validate s).1 = { valid := false, error := some (validate s) }) ∧
    (∀ t, WasmCall.constructSim t ∉ (validateSpec validate s).2) := by
  by_cases h : validate s = "valid" <;>
    simp [validateSpec, h]

/-- Witness for C7 at a concrete rejecting validator. -/
theorem validateSpec_valid_iff_witness :
    (((validateSpec (fun _ => "missing field") "x").1 =
        { valid := true, error := none } ↔
      (fun _ : String => "missing field") "x" = "valid") ∧
    ((fun _ : String => "missing field") "x" ≠ "valid" →
      (validateSpec (fun _ => "missing field") "x").1 =
        { valid := false, error := some ((fun _ : String => "missing field") "x") }) ∧
    (∀ t, WasmCall.constructSim t ∉ (validateSpec (fun _ => "missing field") "x").2)) :=
  validateSpec_valid_iff (fun _ => "missing field") "x"

/-- C8: the renderer's playback speed starts at 1.0, `setPlaybackSpeed`
clamps its argument to [0.1, 10], `getPlaybackSpeed` reads the stored
speed, no other renderer operation changes the speed, and the speed of
a state in range stays in range under every operation. -/
theorem playbackSpeed_clamped :
    initPlayback.playbackSpeed = 1 ∧
    (∀ (v : ℚ) (st : PlaybackState),
      (applyOp (ROp.setSpeed v) st).playbackSpeed = max (1/10) (min 10 v)) ∧
    (∀ st : PlaybackState, getPlaybackSpeed st = st.playbackSpeed) ∧
    (∀ (op : ROp) (st : PlaybackState), (∀ v, op ≠ ROp.setSpeed v) →
      (applyOp op st).playbackSpeed = st.playbackSpeed) ∧
    (∀ (op : ROp) (st : PlaybackState),
      1/10 ≤ st.playbackSpeed → st.playbackSpeed ≤ 10 →
      1/10 ≤ (applyOp op st).playbackSpeed ∧ (applyOp op st).playbackSpeed ≤ 10) ∧
    (1/10 ≤ initPlayback.playbackSpeed ∧ initPlayback.playbackSpeed ≤ 10) := by
  refine ⟨rfl, fun v st => rfl, fun st => rfl, ?_, ?_, by norm_num [initPlayback]⟩
  · intro op st h
    cases op with
    | playOp => by_cases hs : st.hasSim <;> simp [applyOp, hs]
    | pauseOp => rfl
    | stepOnce => rfl
    | resetOp => by_cases hs : st.hasSim <;> simp [applyOp, hs]
    | loadSim => rfl
    | setSpeed v => exact absurd rfl (h v)
  · intro op st h1 h2
    cases op with
    | playOp =>
      have hsp : (applyOp ROp.playOp st).playbackSpeed = st.playbackSpeed := by
        by_cases hs : st.hasSim <;> simp [applyOp, hs]
      rw [hsp]
      exact ⟨h1, h2⟩
    | pauseOp => exact ⟨h1, h2⟩
    | stepOnce => exact ⟨h1, h2⟩
    | resetOp =>
      have hsp : (applyOp ROp.resetOp st).playbackSpeed = st.playbackSpeed := by
        by_cases hs : st.hasSim <;> simp [applyOp, hs]
      rw [hsp]
      exact ⟨h1, h2⟩
    | loadSim => exact ⟨h1, h2⟩
    | setSpeed v =>
      exact ⟨le_max_left _ _, max_le (by norm_num) (min_le_left _ _)⟩

/-- Witness for C8's hypothesis-bearing parts at the pause operation on
the initial state. -/
theorem playbackSpeed_clamped_witness :
    (applyOp ROp.pauseOp initPlayback).playbackSpeed = initPlayback.playbackSpeed ∧
    1/10 ≤ (applyOp ROp.pauseOp initPlayback).playbackSpeed ∧
    (applyOp ROp.pauseOp initPlayback).playbackSpeed ≤ 10 := by
  obtain ⟨h0, hset, hget, hframe, hrange, hinit⟩ := playbackSpeed_clamped
  refine ⟨hframe ROp.pauseOp initPlayback (fun v h => nomatch h), ?_⟩
  exact hrange ROp.pauseOp initPlayback hinit.1 hinit.2

/-- C10: a successful `WasmLoader.load()` caches the module; from then
on every call returns the same module object without importing again
and `isLoaded` is true; before any success `isLoaded` is false; a
failed load clears both the cache and the in-flight promise, so the
next call performs the import again. -/
theorem wasmLoader_load_idempotent (M : Type) (m : M) (e : String)
    (st : LoaderState M) (attempt att2 : Except String M) :
    (loadOnce (loaderInit M) (Except.ok m) =
      (Except.ok m, ⟨some m, some m⟩, true)) ∧
    (isLoaded (⟨some m, some m⟩ : LoaderState M) = true) ∧
    (st.wasmModule = some m →
      loadOnce st attempt = (Except.ok m, st, false) ∧ isLoaded st = true) ∧
    (isLoaded (loaderInit M) = false) ∧
    (loadOnce (loaderInit M) (Except.error e) =
      (Except.error e, loaderInit M, true)) ∧
    ((loadOnce ((loadOnce (loaderInit M) (Except.error e)).2.1) att2).2.2 = true) := by
  refine ⟨rfl, rfl, ?_, rfl, rfl, ?_⟩
  · intro h
    constructor
    · obtain ⟨w, p⟩ := st
      cases w with
      | none => exact absurd h (by simp)
      | some m' =>
        have hm : m' = m := by simpa using h
        subst hm
        rfl
    · simp [isLoaded, h]
  · cases att2 <;> rfl

/-- Witness for C10 at the concrete module value 7 over natural-number
module objects, with the cache already populated. -/
theorem wasmLoader_load_idempotent_witness :
    (loadOnce (loaderInit ℕ) (Except.ok 7) =
      (Except.ok 7, ⟨some 7, some 7⟩, true)) ∧
    (isLoaded (⟨some 7, some 7⟩ : LoaderState ℕ) = true) ∧
    ((⟨some 7, some 7⟩ : LoaderState ℕ).wasmModule = some 7 →
      loadOnce (⟨some 7, some 7⟩ : LoaderState ℕ) (Except.error "again") =
        (Except.ok 7, ⟨some 7, some 7⟩, false) ∧
      isLoaded (⟨some 7, some 7⟩ : LoaderState ℕ) = true) ∧
    (isLoaded (loaderInit ℕ) = false) ∧
    (loadOnce (loaderInit ℕ) (Except.error "net down") =
      (Except.error "net down", loaderInit ℕ, true)) ∧
    ((loadOnce ((loadOnce (loaderInit ℕ) (Except.error "net down")).2.1)
        (Except.ok 9)).2.2 = true) :=
  wasmLoader_load_idempotent ℕ 7 "net down" ⟨some 7, some 7⟩ (Except.error "again")
    (Except.ok 9)

/-- C6: the renderer's `step()` returns null and never invokes the
simulation's `step` when no simulation is loaded or the loaded
simulation is complete; otherwise it invokes the simulation's `step`
exactly once and returns the emitted frame. -/
theorem rendererStep_complete_guard (M : SimModel) (sim : Option M.State) :
    (sim = none → rendererStep M sim = (none, none, 0)) ∧
    (∀ s, sim = some s → M.isComplete s = true →
      rendererStep M sim = (none, some s, 0)) ∧
    (∀ s, sim = some s → M.isComplete s = false →
      rendererStep M sim = (some (M.stepSim s).1, some (M.stepSim s).2, 1)) := by
  refine ⟨?_, ?_, ?_⟩
  · rintro rfl
    rfl
  · rintro s rfl h
    simp [rendererStep, h]
  · rintro s rfl h
    simp [rendererStep, h]

/-- Witness for C6: the toy simulation at state 0 is not complete, so
one renderer step invokes the simulation step once and returns its
frame. -/
theorem rendererStep_complete_guard_witness :
    rendererStep toySim (some ((0 : ℕ) : toySim.State)) =
      (some (toySim.stepSim ((0 : ℕ) : toySim.State)).1,
       some (toySim.stepSim ((0 : ℕ) : toySim.State)).2, 1) :=
  (rendererStep_complete_guard toySim (some ((0 : ℕ) : toySim.State))).2.2
    ((0 : ℕ) : toySim.State) rfl (by decide)

/-- `updateTransforms` acts on each tracked body independently: each
entry keeps its id and folds the matching transforms, in order, over
its mesh. -/
theorem updateTransforms_eq (selected : Option ℕ) (sleeping : Option (List ℕ))
    (bodies : List (ℕ × BodyMesh)) (ts : List BodyTransform) :
    updateTransforms selected sleeping bodies ts =
      bodies.map fun p =>
        (p.1, (ts.filter fun t => p.1 = t.id).foldl
                (fun b t => applyBodyUpdate selected sleeping t b) p.2) := by
  induction ts generalizing bodies with
  | nil =>
    simp [updateTransforms]
  | cons t ts ih =>
    have hstep : updateTransforms selected sleeping bodies (t :: ts) =
        updateTransforms selected sleeping (updateOne selected sleeping bodies t) ts := rfl
    rw [hstep, ih, updateOne, List.map_map]
    refine List.map_congr_left fun p _hp => ?_
    by_cases h : p.1 = t.id
    · simp [Function.comp, List.filter_cons, h]
    · simp [Function.comp, List.filter_cons, h]

/-- C9: `updateTransforms` leaves the set (and order) of tracked body
ids unchanged, leaves every tracked body whose id occurs in no
transform entirely unchanged, and ignores transforms whose id is not
tracked. -/
theorem updateTransforms_frame (selected : Option ℕ) (sleeping : Option (List ℕ))
    (bodies : List (ℕ × BodyMesh)) (ts : List BodyTransform) :
    ((updateTransforms selected sleeping bodies ts).map Prod.fst =
      bodies.map Prod.fst) ∧
    (∀ (i : ℕ) (p : ℕ × BodyMesh), bodies.get? i = some p →
      p.1 ∉ ts.map (fun t => t.id) →
      (updateTransforms selected sleeping bodies ts).get? i = some p) ∧
    ((∀ t ∈ ts, t.id ∉ bodies.map Prod.fst) →
      updateTransforms selected sleeping bodies ts = bodies) := by
  refine ⟨?_, ?_, ?_⟩
  · rw [updateTransforms_eq, List.map_map]
    rfl
  · intro i p hip hnot
    rw [updateTransforms_eq, List.get?_map, hip]
    have hfil : (ts.filter fun t => p.1 = t.id) = [] := by
      apply List.filter_eq_nil.mpr
      intro t hts
      simp only [decide_eq_true_eq]
      intro hpt
      exact hnot (List.mem_map.mpr ⟨t, hts, hpt.symm⟩)
    simp [hfil]
  · intro hall
    rw [updateTransforms_eq]
    have : ∀ p ∈ bodies, ((p.1,
        (ts.filter fun t => p.1 = t.id).foldl
          (fun b t => applyBodyUpdate selected sleeping t b) p.2) : ℕ × BodyMesh) = p := by
      intro p hp
      have hfil : (ts.filter fun t => p.1 = t.id) = [] := by
        apply List.filter_eq_nil.mpr
        intro t hts
        simp only [decide_eq_true_eq]
        intro hpt
        exact hall t hts (List.mem_map.mpr ⟨p, hp, hpt⟩)
      simp [hfil]
    calc bodies.map _ = bodies.map id := List.map_congr_left fun p hp => this p hp
      _ = bodies := List.map_id bodies

/-- Witness for C9: with tracked bodies 0 and 1 and transforms for
ids 0 and 5, the untouched body 1 keeps its entry exactly. -/
theorem updateTransforms_frame_witness :
    (updateTransforms none none [(0, meshA), (1, meshB)] [tfA, tfX]).get? 1 =
      some (1, meshB) :=
  (updateTransforms_frame none none [(0, meshA), (1, meshB)] [tfA, tfX]).2.1 1
    (1, meshB) rfl (by decide)

/-- C1: running an experiment is deterministic — for any solver
satisfying the deterministic solver contract and any two equal specs,
the two MetricWorld frame sequences are identical and the two run
reports agree on every field except the wall-clock timing, which
records exactly the externally supplied clock reading. -/
theorem run_deterministic (M : SolverModel) (s1 s2 : ExperimentSpec)
    (c1 c2 : ℕ) (hs : s1 = s2) :
    runFrames M s1 = runFrames M s2 ∧
    stripTiming (runExperiment M s1 c1) = stripTiming (runExperiment M s2 c2) ∧
    (runExperiment M s1 c1).timingMs = c1 ∧
    (runExperiment M s2 c2).timingMs = c2 := by
  subst hs
  exact ⟨rfl, rfl, rfl, rfl⟩

/-- Witness for C1: two runs of the sample spec on the trivial solver
under different wall clocks. -/
theorem run_deterministic_witness :
    runFrames trivialSolver sampleSpec = runFrames trivialSolver sampleSpec ∧
    stripTiming (runExperiment trivialSolver sampleSpec 3) =
      stripTiming (runExperiment trivialSolver sampleSpec 5) ∧
    (runExperiment trivialSolver sampleSpec 3).timingMs = 3 ∧
    (runExperiment trivialSolver sampleSpec 5).timingMs = 5 :=
  run_deterministic trivialSolver sampleSpec sampleSpec 3 5 rfl

end SimuForge
